import Mathlib

/-!
Shallow embedding of the haybox-debugger driver-management core
(src/src-tauri/src/lib.rs) and proofs about it.

The embedding models the externals explicitly:
  * the USB bus as a snapshot (`UsbSnapshot`), mirroring the three
    outcomes of opening a context (failure), enumerating devices
    (failure), and reading each device descriptor (per-device `Option`);
  * the filesystem as a path-to-content map (`Fs`) plus a directory set;
  * launched subprocesses as an append-only log in `World`;
  * the WMI driver database as an initialization outcome plus a
    query-string-indexed result function;
  * environment knobs (`Env`) for admin rights, the SystemRoot
    variable, the executable directory, and injected I/O failures.
-/

/-- One attached USB device; `desc` is `none` when its descriptor
cannot be read (`device_descriptor()` returning `Err`). -/
structure UsbDevice where
  desc : Option (Nat × Nat)
deriving DecidableEq, Repr

/-- Outcome of `rusb::Context::new()` followed by `context.devices()`. -/
inductive UsbSnapshot where
  | noContext
  | noEnumeration
  | devices (device_list : List UsbDevice)
deriving DecidableEq, Repr

/-- Mirrors `UsbDeviceInfo { vid, pid, name }`. -/
structure UsbDeviceInfo where
  vid : Nat
  pid : Nat
  name : String
deriving DecidableEq, Repr

/-- Mirrors `DeviceIdentifiers`. -/
structure DeviceIdentifiers where
  default_mode : UsbDeviceInfo
  config_mode : UsbDeviceInfo
  bootsel_mode : UsbDeviceInfo
  switch_mode : UsbDeviceInfo
  gamecube_mode : UsbDeviceInfo
deriving DecidableEq, Repr

/-- The static `DEVICES` registry (`lazy_static` block). -/
def DEVICES : DeviceIdentifiers :=
  { default_mode := { vid := 0x0738, pid := 0x4726, name := "Default Mode" }
    config_mode := { vid := 0x2E8A, pid := 0x000A, name := "Config Mode" }
    bootsel_mode := { vid := 0x2E8A, pid := 0x0003, name := "BOOTSEL Mode" }
    switch_mode := { vid := 0x0F0D, pid := 0x0092, name := "Switch Mode" }
    gamecube_mode := { vid := 0x057E, pid := 0x0337, name := "GameCube Adapter" } }

/-- The inner loop body of `is_device_connected_batch`: for one device
descriptor, set `results[i] := true` for every matching pair `i`.
Modelled as a paired walk over the pair list and the result list. -/
def mark_matches (dv dp : Nat) : List (Nat × Nat) → List Bool → List Bool
  | pr :: prs, r :: rs => (r || (dv == pr.1 && dp == pr.2)) :: mark_matches dv dp prs rs
  | _, _ => []

/-- One iteration of the device loop in `is_device_connected_batch`:
a device whose descriptor cannot be read is skipped. -/
def scan_device (desc : Option (Nat × Nat)) (pairs : List (Nat × Nat))
    (results : List Bool) : List Bool :=
  match desc with
  | none => results
  | some (dv, dp) => mark_matches dv dp pairs results

/-- `is_device_connected_batch`: single enumeration pass answering all
pairs; any context/enumeration failure yields all-`false`. -/
def is_device_connected_batch (usb : UsbSnapshot)
    (devices_to_check : List (Nat × Nat)) : List Bool :=
  match usb with
  | .noContext => List.replicate devices_to_check.length false
  | .noEnumeration => List.replicate devices_to_check.length false
  | .devices device_list =>
      device_list.foldl
        (fun results device => scan_device device.desc devices_to_check results)
        (List.replicate devices_to_check.length false)

/-- The `device_list.iter().any(...)` connectivity pattern repeated at
four call sites (`get_current_device_status`, `install_winusb`,
`check_winusb_driver`, `get_driver_info`). -/
def is_device_present (usb : UsbSnapshot) (vendor_id product_id : Nat) : Bool :=
  match usb with
  | .noContext => false
  | .noEnumeration => false
  | .devices device_list =>
      device_list.any (fun device =>
        match device.desc with
        | some (dv, dp) => dv == vendor_id && dp == product_id
        | none => false)

/-- Whether one readable-or-not descriptor matches a (vid, pid) pair. -/
def dev_matches (desc : Option (Nat × Nat)) (pr : Nat × Nat) : Bool :=
  match desc with
  | some (dv, dp) => dv == pr.1 && dp == pr.2
  | none => false

/-- Substring replacement on character lists, fuelled by the input
length so that it is structural (each step consumes at least one
character; the fuel-exhaustion branch is unreachable). Models Rust
`str::replace`. -/
def replace_chars_aux (pat rep : List Char) : Nat → List Char → List Char
  | _, [] => []
  | 0, l => l
  | fuel + 1, c :: cs =>
    if pat.isPrefixOf (c :: cs) && !pat.isEmpty then
      rep ++ replace_chars_aux pat rep fuel (cs.drop (pat.length - 1))
    else
      c :: replace_chars_aux pat rep fuel cs

/-- Rust `str::replace`. -/
def str_replace (s pat rep : String) : String :=
  String.mk (replace_chars_aux pat.toList rep.toList s.toList.length s.toList)

/-- Substring containment on character lists. -/
def contains_sub (hay needle : List Char) : Bool :=
  match hay with
  | [] => needle.isEmpty
  | _ :: rest => needle.isPrefixOf hay || contains_sub rest needle

/-- Rust `str::contains` with a string pattern. -/
def str_contains (hay needle : String) : Bool :=
  contains_sub hay.toList needle.toList

/-- One uppercase hexadecimal digit. -/
def hex_digit (n : Nat) : Char :=
  if n < 10 then Char.ofNat (48 + n) else Char.ofNat (55 + n)

/-- Rust `format!` with the 04X spec applied to a u16 value: four
uppercase hexadecimal digits. -/
def hex4 (n : Nat) : String :=
  String.mk [hex_digit (n / 4096 % 16), hex_digit (n / 256 % 16),
             hex_digit (n / 16 % 16), hex_digit (n % 16)]

/-- Filesystem model: a directory set plus a path-to-content map.
Path joining is modelled with a forward-slash separator. -/
structure Fs where
  dirs : List String
  files : List (String × String)
deriving DecidableEq, Repr

def Fs.read (fs : Fs) (p : String) : Option String :=
  (fs.files.find? (fun e => e.1 == p)).map (fun e => e.2)

def Fs.fileExists (fs : Fs) (p : String) : Bool :=
  (fs.read p).isSome

def Fs.dirExists (fs : Fs) (p : String) : Bool :=
  fs.dirs.contains p

def Fs.write (fs : Fs) (p c : String) : Fs :=
  { fs with files := (p, c) :: fs.files.filter (fun e => e.1 != p) }

def Fs.remove (fs : Fs) (p : String) : Fs :=
  { fs with files := fs.files.filter (fun e => e.1 != p) }

def Fs.mkdir (fs : Fs) (p : String) : Fs :=
  { fs with dirs := p :: fs.dirs }

/-- `std::fs::rename` on an existing source: move the content. -/
def Fs.rename (fs : Fs) (src dst : String) : Fs :=
  match fs.read src with
  | some c => (fs.remove src).write dst c
  | none => fs

/-- Mutable world threaded through the driver operations: the
filesystem plus an append-only log of launched subprocesses. -/
structure World where
  fs : Fs
  procs : List String
deriving DecidableEq, Repr

/-- Read-only environment: admin probe outcome, the SystemRoot
variable, the executable directory (`none` models `current_exe` or
`parent` failing), and injected I/O failure knobs. `pnputilResult` is
`none` when launching pnputil fails, otherwise the exit success flag
and captured stderr. -/
structure Env where
  admin : Bool
  systemRoot : Option String
  exeDir : Option String
  createDirFails : Bool
  readFails : Bool
  writeFails : Bool
  renameFails : Bool
  copyFailures : List String
  pnputilResult : Option (Bool × String)
deriving DecidableEq, Repr

/-- `check_admin_rights`: probes by running `net session`; the probe is
logged as a launched subprocess and its outcome comes from `Env.admin`
(launch failure and a non-success exit both yield `false`). -/
def check_admin_rights (env : Env) (w : World) : Bool × World :=
  (env.admin, { w with procs := w.procs ++ ["net session"] })

/-- `std::env::var("SystemRoot")` joined with System32, with the
hardcoded fallback when the variable is unset. -/
def system32_path (env : Env) : String :=
  match env.systemRoot with
  | some root => root ++ "/System32"
  | none => "C:/Windows/System32"

def xinput_dll_path (env : Env) : String :=
  system32_path env ++ "/xinput1_4.dll"

/-- `is_xinput_installed`: pure existence check of the DLL. -/
def is_xinput_installed (env : Env) (fs : Fs) : Bool :=
  fs.fileExists (xinput_dll_path env)

/-- `uninstall_xinput_driver`. `with_extension` applied to a path
ending in .dll with the new extension dll.bak appends ".bak". -/
def uninstall_xinput_driver (env : Env) (w : World) : Except String Unit × World :=
  let (admin, w) := check_admin_rights env w
  if !admin then
    (.error "Administrator privileges required", w)
  else
    let xinput_path := xinput_dll_path env
    if w.fs.fileExists xinput_path then
      let backup_path := xinput_path ++ ".bak"
      if env.renameFails then
        (.error "Failed to rename xinput1_4.dll", w)
      else
        (.ok (), { w with fs := w.fs.rename xinput_path backup_path })
    else
      (.ok (), w)

/-- `reinstall_xinput_driver`: copies the DLL co-located with the
executable over the system path; `fs::copy` fails when the source is
missing or on an injected I/O failure. -/
def reinstall_xinput_driver (env : Env) (w : World) : Except String Unit × World :=
  let (admin, w) := check_admin_rights env w
  if !admin then
    (.error "Administrator privileges required", w)
  else
    let xinput_path := xinput_dll_path env
    match env.exeDir with
    | none => (.error "Could not find executable path", w)
    | some exe_dir =>
      let source_dll := exe_dir ++ "/XInput1_4.dll"
      match w.fs.read source_dll with
      | none => (.error "Failed to copy xinput1_4.dll", w)
      | some content =>
        if env.copyFailures.contains source_dll then
          (.error "Failed to copy xinput1_4.dll", w)
        else
          (.ok (), { w with fs := w.fs.write xinput_path content })

/-- Mirrors `PrepareDriverError`. -/
inductive PrepareDriverError where
  | DriverNotFound
  | PermissionDenied
  | UnknownError (e : String)
deriving DecidableEq, Repr

/-- The `Display` impl for `PrepareDriverError`. -/
def PrepareDriverError.display : PrepareDriverError → String
  | .DriverNotFound => "Driver files not found"
  | .PermissionDenied => "Permission denied"
  | .UnknownError e => "Unknown error: " ++ e

/-- Mirrors `Config`. -/
structure Config where
  vendor_id : Nat
  product_id : Nat
  description : String
  manufacturer : String
deriving DecidableEq, Repr

/-- Mirrors `ConfigBuilder`. The fluent setters carry a `set_` prefix
here because a Lean method cannot share its structure field's name. -/
structure ConfigBuilder where
  vendor_id : Nat
  product_id : Nat
  description : String
  manufacturer : String
deriving DecidableEq, Repr

def ConfigBuilder.new : ConfigBuilder :=
  { vendor_id := 0, product_id := 0, description := "", manufacturer := "" }

def ConfigBuilder.set_vendor_id (b : ConfigBuilder) (vendor_id : Nat) : ConfigBuilder :=
  { b with vendor_id }

def ConfigBuilder.set_product_id (b : ConfigBuilder) (product_id : Nat) : ConfigBuilder :=
  { b with product_id }

def ConfigBuilder.set_description (b : ConfigBuilder) (description : String) : ConfigBuilder :=
  { b with description }

def ConfigBuilder.set_manufacturer (b : ConfigBuilder) (manufacturer : String) : ConfigBuilder :=
  { b with manufacturer }

def ConfigBuilder.build (b : ConfigBuilder) : Config :=
  { vendor_id := b.vendor_id, product_id := b.product_id,
    description := b.description, manufacturer := b.manufacturer }

/-- `std::env::temp_dir().join("haybox_drivers")`. -/
def haybox_temp_dir : String := "TEMP/haybox_drivers"

/-- The four placeholder substitutions rendering the INF template.
The placeholder text is double-brace VID / PID / DESCRIPTION /
MANUFACTURER, written here with hexadecimal brace escapes. -/
def render_inf (template : String) (c : Config) : String :=
  str_replace (str_replace (str_replace (str_replace template
    "\x7b\x7bVID\x7d\x7d" (hex4 c.vendor_id))
    "\x7b\x7bPID\x7d\x7d" (hex4 c.product_id))
    "\x7b\x7bDESCRIPTION\x7d\x7d" c.description)
    "\x7b\x7bMANUFACTURER\x7d\x7d" c.manufacturer

/-- The companion-file copy loop at the end of `prepare_driver`. -/
def copy_companions (env : Env) (driver_resource_path temp_dir : String) :
    List String → World → Except PrepareDriverError Unit × World
  | [], w => (.ok (), w)
  | file_name :: rest, w =>
    let source_path := driver_resource_path ++ "/" ++ file_name
    if w.fs.fileExists source_path then
      if env.copyFailures.contains source_path then
        (.error (.UnknownError ("Failed to copy " ++ file_name)), w)
      else
        let target_path := temp_dir ++ "/" ++ file_name
        let w2 := { w with fs := w.fs.write target_path ((w.fs.read source_path).getD "") }
        copy_companions env driver_resource_path temp_dir rest w2
    else
      (.error .DriverNotFound, w)

/-- `Config::prepare_driver`. -/
def Config.prepare_driver (c : Config) (env : Env) (w : World) :
    Except PrepareDriverError Unit × World :=
  let (admin, w) := check_admin_rights env w
  if !admin then
    (.error .PermissionDenied, w)
  else
    let temp_dir := haybox_temp_dir
    if !(w.fs.dirExists temp_dir) && env.createDirFails then
      (.error (.UnknownError "Failed to create temp directory"), w)
    else
      let w := if !(w.fs.dirExists temp_dir) then { w with fs := w.fs.mkdir temp_dir } else w
      match env.exeDir with
      | none => (.error (.UnknownError "Could not find executable path"), w)
      | some exe_dir =>
        let driver_resource_path := exe_dir ++ "/driver_resources"
        if !(w.fs.dirExists driver_resource_path) then
          (.error .DriverNotFound, w)
        else
          let inf_template_path := driver_resource_path ++ "/winusb_template.inf"
          if !(w.fs.fileExists inf_template_path) then
            (.error .DriverNotFound, w)
          else if env.readFails then
            (.error (.UnknownError "Failed to read INF template"), w)
          else
            let template_content := (w.fs.read inf_template_path).getD ""
            let inf_content := render_inf template_content c
            if env.writeFails then
              (.error (.UnknownError "Failed to write INF file"), w)
            else
              let inf_path := temp_dir ++ "/winusb_driver.inf"
              let w := { w with fs := w.fs.write inf_path inf_content }
              copy_companions env driver_resource_path temp_dir
                ["WinUSBCoInstaller2.dll", "WdfCoInstaller01011.dll"] w

/-- `Config::install_driver`. A devcon launch failure is only printed
as a warning in the source, so its outcome is not modelled — only the
invocation is logged when devcon.exe is present. -/
def Config.install_driver (c : Config) (env : Env) (w : World) :
    Except String Unit × World :=
  let (admin, w) := check_admin_rights env w
  if !admin then
    (.error "Administrator privileges required", w)
  else
    let inf_path := haybox_temp_dir ++ "/winusb_driver.inf"
    if !(w.fs.fileExists inf_path) then
      (.error "Driver INF file not found. Did you call prepare_driver first?", w)
    else
      let w := { w with procs := w.procs ++ ["pnputil /add-driver " ++ inf_path ++ " /install"] }
      match env.pnputilResult with
      | none => (.error "Failed to execute pnputil", w)
      | some (success, stderr) =>
        if !success then
          (.error ("pnputil failed: " ++ stderr), w)
        else
          match env.exeDir with
          | none => (.error "Could not find executable path", w)
          | some exe_dir =>
            let devcon_path := exe_dir ++ "/driver_resources/devcon.exe"
            if w.fs.fileExists devcon_path then
              let hw_id := "USB\\VID_" ++ hex4 c.vendor_id ++ "&PID_" ++ hex4 c.product_id
              let w := { w with procs := w.procs ++ ["devcon update " ++ inf_path ++ " " ++ hw_id] }
              (.ok (), w)
            else
              (.ok (), w)

/-- `install_winusb_driver`: prepare, then install, mapping errors. -/
def install_winusb_driver (config : Config) (env : Env) (w : World) :
    Except String Unit × World :=
  match config.prepare_driver env w with
  | (.ok _, w2) =>
    match config.install_driver env w2 with
    | (.ok _, w3) => (.ok (), w3)
    | (.error e, w3) => (.error ("Failed to install driver: " ++ e), w3)
  | (.error .DriverNotFound, w2) => (.error "WinUSB driver files not found", w2)
  | (.error e, w2) => (.error ("Failed to prepare driver: " ++ e.display), w2)

/-- Mirrors `DriverOperationResult`. -/
structure DriverOperationResult where
  success : Bool
  message : String
deriving DecidableEq, Repr

/-- The `install_winusb` command: admin gate, GameCube connectivity
gate (against this call's own USB snapshot), then the two-phase
pipeline via `install_winusb_driver`. -/
def install_winusb (env : Env) (usb : UsbSnapshot) (w : World) :
    DriverOperationResult × World :=
  let (admin, w) := check_admin_rights env w
  if !admin then
    ({ success := false, message := "Administrator privileges required" }, w)
  else
    let gamecube_mode := DEVICES.gamecube_mode
    let is_connected := is_device_present usb gamecube_mode.vid gamecube_mode.pid
    if !is_connected then
      ({ success := false,
         message := "GameCube adapter not found. Please make sure it is connected and in the correct mode." }, w)
    else
      let config :=
        ((((ConfigBuilder.new).set_vendor_id gamecube_mode.vid).set_product_id
          gamecube_mode.pid).set_description gamecube_mode.name).set_manufacturer
          "Nintendo" |>.build
      match install_winusb_driver config env w with
      | (.ok _, w2) =>
        ({ success := true,
           message := "WinUSB driver successfully installed for GameCube adapter" }, w2)
      | (.error e, w2) =>
        ({ success := false, message := "Failed to install WinUSB driver: " ++ e }, w2)

/-- Mirrors `WmiPnPEntity` (the projection used by `check_winusb_driver`). -/
structure WmiPnPEntity where
  driver_provider : Option String
deriving DecidableEq, Repr

/-- `check_winusb_driver`: connectivity pre-check against this call's
own USB snapshot; on a connected device, a WMI initialization or query
failure (the `wmi` argument) propagates as an error, otherwise the
record loop returns whether some provider contains "WinUSB". -/
def check_winusb_driver (usb : UsbSnapshot) (wmi : Except String (List WmiPnPEntity))
    (vendor_id product_id : Nat) : Except String Bool :=
  if !(is_device_present usb vendor_id product_id) then
    .ok false
  else
    match wmi with
    | .error e => .error e
    | .ok devices =>
      .ok (devices.any (fun device =>
        match device.driver_provider with
        | some driver_provider => str_contains driver_provider "WinUSB"
        | none => false))

/-- Mirrors `DeviceStatus`. -/
structure DeviceStatus where
  default_mode_connected : Bool
  config_mode_connected : Bool
  bootsel_mode_connected : Bool
  switch_mode_connected : Bool
  xinput_installed : Bool
  gamecube_adapter_connected : Bool
  winusb_installed : Bool
deriving DecidableEq, Repr

/-- The `devices_to_check` array in `get_current_device_status`. -/
def status_devices_to_check : List (Nat × Nat) :=
  [(DEVICES.default_mode.vid, DEVICES.default_mode.pid),
   (DEVICES.config_mode.vid, DEVICES.config_mode.pid),
   (DEVICES.bootsel_mode.vid, DEVICES.bootsel_mode.pid),
   (DEVICES.switch_mode.vid, DEVICES.switch_mode.pid)]

/-- `get_current_device_status`. Each USB enumeration site opens its
own context, so each takes its own snapshot: `busUsb` for the batch
scan, `gcUsb` for the GameCube connectivity check, `wuUsb` for the
connectivity pre-check inside `check_winusb_driver`. The `?` on
`check_winusb_driver` is the only fallible step. Indexing `connected`
is via `getD`, sound because the list provably has length four. -/
def get_current_device_status (env : Env) (fs : Fs) (busUsb gcUsb wuUsb : UsbSnapshot)
    (gcWmi : Except String (List WmiPnPEntity)) : Except String DeviceStatus :=
  let connected := is_device_connected_batch busUsb status_devices_to_check
  let xinput_installed := is_xinput_installed env fs
  match check_winusb_driver wuUsb gcWmi DEVICES.gamecube_mode.vid DEVICES.gamecube_mode.pid with
  | .error e => .error e
  | .ok winusb_installed =>
    let gamecube_adapter_connected :=
      is_device_present gcUsb DEVICES.gamecube_mode.vid DEVICES.gamecube_mode.pid
    .ok { default_mode_connected := connected.getD 0 false
          config_mode_connected := connected.getD 1 false
          bootsel_mode_connected := connected.getD 2 false
          switch_mode_connected := connected.getD 3 false
          xinput_installed
          gamecube_adapter_connected
          winusb_installed }

/-- The all-`false` fallback snapshot in `get_device_status`. -/
def all_false_status : DeviceStatus :=
  { default_mode_connected := false, config_mode_connected := false,
    bootsel_mode_connected := false, switch_mode_connected := false,
    xinput_installed := false, gamecube_adapter_connected := false,
    winusb_installed := false }

/-- The `get_device_status` command: `unwrap_or` the fallback. -/
def get_device_status (env : Env) (fs : Fs) (busUsb gcUsb wuUsb : UsbSnapshot)
    (gcWmi : Except String (List WmiPnPEntity)) : DeviceStatus :=
  match get_current_device_status env fs busUsb gcUsb wuUsb gcWmi with
  | .ok status => status
  | .error _ => all_false_status

/-- Mirrors the local `WmiDeviceInfo` in `get_driver_info`. -/
structure WmiDeviceInfo where
  device_id : String
  name : Option String
  driver_provider : Option String
  driver_version : Option String
  driver_date : Option String
deriving DecidableEq, Repr

/-- Mirrors `DriverInfo`. -/
structure DriverInfo where
  device_id : String
  device_name : String
  driver_provider : Option String
  driver_version : Option String
  driver_date : Option String
  is_winusb : Bool
deriving DecidableEq, Repr

/-- The WMI driver database as seen by `get_driver_info`: the
`WMIConnection::new` outcome and the `raw_query` outcome per query
string. -/
structure WmiEnv where
  init : Except String Unit
  query : String → Except String (List WmiDeviceInfo)

/-- The WQL query string built by `get_driver_info` for each filter
shape. Single quotes are written with hexadecimal escapes. -/
def driver_info_query (vendor_id product_id : Option Nat) : String :=
  match vendor_id, product_id with
  | some vid, some pid =>
    "SELECT DeviceID, Name, DriverProvider, DriverVersion, DriverDate FROM Win32_PnPEntity WHERE DeviceID LIKE \x27%VID_"
      ++ hex4 vid ++ "%\x27 AND DeviceID LIKE \x27%PID_" ++ hex4 pid ++ "%\x27"
  | some vid, none =>
    "SELECT DeviceID, Name, DriverProvider, DriverVersion, DriverDate FROM Win32_PnPEntity WHERE DeviceID LIKE \x27%VID_"
      ++ hex4 vid ++ "%\x27"
  | none, some pid =>
    "SELECT DeviceID, Name, DriverProvider, DriverVersion, DriverDate FROM Win32_PnPEntity WHERE DeviceID LIKE \x27%PID_"
      ++ hex4 pid ++ "%\x27"
  | none, none =>
    "SELECT DeviceID, Name, DriverProvider, DriverVersion, DriverDate FROM Win32_PnPEntity WHERE DeviceID LIKE \x27%USB%\x27"

/-- The per-record projection inside `get_driver_info`: derive
`is_winusb`, default a missing name to "Unknown Device", and pass the
remaining fields through. -/
def mk_driver_info (device : WmiDeviceInfo) : DriverInfo :=
  let is_winusb :=
    (device.driver_provider.map (fun provider => str_contains provider "WinUSB")).getD false
  { device_id := device.device_id
    device_name := device.name.getD "Unknown Device"
    driver_provider := device.driver_provider
    driver_version := device.driver_version
    driver_date := device.driver_date
    is_winusb }

/-- The `get_driver_info` command. Besides the result it returns the
list of WQL queries actually issued to the driver database, so that
"no query was attempted" is an observable fact. -/
def get_driver_info (usb : UsbSnapshot) (wmi : WmiEnv)
    (vendor_id product_id : Option Nat) :
    Except String (List DriverInfo) × List String :=
  let precheck_pass :=
    match vendor_id, product_id with
    | some vid, some pid => is_device_present usb vid pid
    | _, _ => true
  if !precheck_pass then
    (.ok [], [])
  else
    match wmi.init with
    | .error e => (.error ("Failed to initialize WMI: " ++ e), [])
    | .ok _ =>
      let query := driver_info_query vendor_id product_id
      match wmi.query query with
      | .error e => (.error ("Failed to query WMI: " ++ e), [query])
      | .ok devices => (.ok (devices.map mk_driver_info), [query])

theorem find_filter_ne {p q : String} (h : p ≠ q) (l : List (String × String)) :
    (l.filter (fun e => e.1 != q)).find? (fun e => e.1 == p)
      = l.find? (fun e => e.1 == p) := by
  induction l with
  | nil => rfl
  | cons a as ih =>
    have hqp : (q == p) = false := by
      simp
      exact fun hc => h hc.symm
    by_cases hq : a.1 = q
    · simp [List.filter_cons, hq, List.find?_cons, hqp, ih]
    · have hkeep : (a.1 != q) = true := by simp [hq]
      by_cases hp : a.1 = p
      · simp only [List.filter_cons, hkeep, if_true]
        simp [List.find?_cons, hp]
      · simp [List.filter_cons, hq, List.find?_cons, hp, ih]

theorem find_filter_self (p : String) (l : List (String × String)) :
    (l.filter (fun e => e.1 != p)).find? (fun e => e.1 == p) = none := by
  induction l with
  | nil => rfl
  | cons a as ih =>
    by_cases hp : a.1 = p
    · simp [List.filter_cons, hp, ih]
    · simp [List.filter_cons, hp, List.find?_cons, ih]

theorem Fs.read_write_self (fs : Fs) (p c : String) : (fs.write p c).read p = some c := by
  simp [Fs.write, Fs.read, List.find?_cons]

theorem Fs.read_write_ne (fs : Fs) {p q : String} (h : p ≠ q) (c : String) :
    (fs.write q c).read p = fs.read p := by
  have hq : (q == p) = false := by
    simp
    exact fun hc => h hc.symm
  simp [Fs.write, Fs.read, List.find?_cons, hq, find_filter_ne h]

theorem Fs.read_remove_self (fs : Fs) (p : String) : (fs.remove p).read p = none := by
  simp [Fs.remove, Fs.read, find_filter_self]

theorem append_bak_ne (s : String) : s ≠ s ++ ".bak" := by
  intro h
  have hl := congrArg String.length h
  simp [String.length_append] at hl
  exact absurd hl (by decide)

/-- C5: when both vendorId and productId are supplied and no attached
USB device matches the pair, `get_driver_info` returns the empty list
successfully and issues no driver-database query, for every driver
database state. -/
theorem get_driver_info_precheck (usb : UsbSnapshot) (wmi : WmiEnv) (vid pid : Nat)
    (h : is_device_present usb vid pid = false) :
    get_driver_info usb wmi (some vid) (some pid) = (.ok [], []) := by
  simp [get_driver_info, h]

/-- Witness for C5 at a concrete disconnected device and a driver
database that would fail if it were ever consulted. -/
theorem get_driver_info_precheck_witness :
    is_device_present (.devices [{ desc := some (0x0738, 0x4726) }]) 0x057E 0x0337 = false
    ∧ get_driver_info (.devices [{ desc := some (0x0738, 0x4726) }])
        { init := .error "unavailable", query := fun _ => .error "unavailable" }
        (some 0x057E) (some 0x0337) = (.ok [], []) :=
  ⟨by decide,
   get_driver_info_precheck (.devices [{ desc := some (0x0738, 0x4726) }])
     { init := .error "unavailable", query := fun _ => .error "unavailable" }
     0x057E 0x0337 (by decide)⟩

/-- C7: with admin rights held and the rendered INF absent from the
scratch directory, `install_driver` fails with the descriptive INF-not-
found error; the filesystem is untouched and no subprocess beyond the
admin probe is launched (in particular pnputil is never invoked), so
nothing is re-derived. -/
theorem install_driver_requires_inf (c : Config) (env : Env) (w : World)
    (hadmin : env.admin = true)
    (hinf : w.fs.fileExists (haybox_temp_dir ++ "/winusb_driver.inf") = false) :
    c.install_driver env w =
      (.error "Driver INF file not found. Did you call prepare_driver first?",
       { w with procs := w.procs ++ ["net session"] }) := by
  simp [Config.install_driver, check_admin_rights, hadmin, hinf]

/-- Witness for C7 on an empty scratch directory. -/
theorem install_driver_requires_inf_witness :
    ({ vendor_id := 0x057E, product_id := 0x0337, description := "GameCube Adapter",
       manufacturer := "Nintendo" } : Config).install_driver
      { admin := true, systemRoot := none, exeDir := some "EXE", createDirFails := false,
        readFails := false, writeFails := false, renameFails := false, copyFailures := [],
        pnputilResult := some (true, "") }
      { fs := { dirs := [], files := [] }, procs := [] }
    = (.error "Driver INF file not found. Did you call prepare_driver first?",
       { fs := { dirs := [], files := [] }, procs := ["net session"] }) :=
  install_driver_requires_inf _ _ _ rfl (by decide)

/-- C10: whenever the admin-rights probe fails, each of XInput
uninstall, XInput reinstall, WinUSB prepare, and WinUSB install
returns a permission-denied failure with the filesystem unchanged and
no subprocess launched beyond the probe itself. -/
theorem permission_denied_atomic (env : Env) (w : World) (c : Config)
    (h : env.admin = false) :
    uninstall_xinput_driver env w
      = (.error "Administrator privileges required", { w with procs := w.procs ++ ["net session"] })
    ∧ reinstall_xinput_driver env w
      = (.error "Administrator privileges required", { w with procs := w.procs ++ ["net session"] })
    ∧ c.prepare_driver env w
      = (.error .PermissionDenied, { w with procs := w.procs ++ ["net session"] })
    ∧ c.install_driver env w
      = (.error "Administrator privileges required", { w with procs := w.procs ++ ["net session"] }) := by
  refine ⟨?_, ?_, ?_, ?_⟩
  · simp [uninstall_xinput_driver, check_admin_rights, h]
  · simp [reinstall_xinput_driver, check_admin_rights, h]
  · simp [Config.prepare_driver, check_admin_rights, h]
  · simp [Config.install_driver, check_admin_rights, h]

/-- Witness for C10 with a concrete non-admin environment and a
non-trivial filesystem. -/
theorem permission_denied_atomic_witness :
    uninstall_xinput_driver
      { admin := false, systemRoot := none, exeDir := none, createDirFails := false,
        readFails := false, writeFails := false, renameFails := false, copyFailures := [],
        pnputilResult := none }
      { fs := { dirs := ["TEMP/haybox_drivers"],
                files := [("C:/Windows/System32/xinput1_4.dll", "dll")] }, procs := [] }
    = (.error "Administrator privileges required",
       { fs := { dirs := ["TEMP/haybox_drivers"],
                 files := [("C:/Windows/System32/xinput1_4.dll", "dll")] },
         procs := ["net session"] }) :=
  (permission_denied_atomic _ _
    { vendor_id := 0, product_id := 0, description := "", manufacturer := "" } rfl).1

/-- C2: `get_device_status` never fails outward: for every combination
of sub-check outcomes it yields the `DeviceStatus` of the underlying
fallible snapshot when that succeeds, and the all-false snapshot when
it errors; in both cases a fully populated `DeviceStatus` is returned. -/
theorem get_device_status_total (env : Env) (fs : Fs) (busUsb gcUsb wuUsb : UsbSnapshot)
    (gcWmi : Except String (List WmiPnPEntity)) :
    (get_current_device_status env fs busUsb gcUsb wuUsb gcWmi
       = .ok (get_device_status env fs busUsb gcUsb wuUsb gcWmi))
    ∨ ((∃ e, get_current_device_status env fs busUsb gcUsb wuUsb gcWmi = .error e)
       ∧ get_device_status env fs busUsb gcUsb wuUsb gcWmi = all_false_status) := by
  cases h : get_current_device_status env fs busUsb gcUsb wuUsb gcWmi with
  | ok s => left; simp [get_device_status, h]
  | error e => right; exact ⟨⟨e, rfl⟩, by simp [get_device_status, h]⟩

theorem mk_driver_info_winusb (rec : WmiDeviceInfo) :
    (mk_driver_info rec).is_winusb = true ↔
      ∃ provider, (mk_driver_info rec).driver_provider = some provider
        ∧ str_contains provider "WinUSB" = true := by
  cases hp : rec.driver_provider with
  | none => simp [mk_driver_info, hp]
  | some p => simp [mk_driver_info, hp]

theorem get_driver_info_ok_shape (usb : UsbSnapshot) (wmi : WmiEnv)
    (vendor_id product_id : Option Nat) (infos : List DriverInfo) (qs : List String)
    (h : get_driver_info usb wmi vendor_id product_id = (.ok infos, qs)) :
    ∃ recs : List WmiDeviceInfo, infos = recs.map mk_driver_info := by
  have step : ∀ (pre : Bool),
      (if !pre then ((.ok [], []) : Except String (List DriverInfo) × List String)
       else
         match wmi.init with
         | .error e => (.error ("Failed to initialize WMI: " ++ e), [])
         | .ok _ =>
           match wmi.query (driver_info_query vendor_id product_id) with
           | .error e =>
             (.error ("Failed to query WMI: " ++ e), [driver_info_query vendor_id product_id])
           | .ok devices =>
             (.ok (devices.map mk_driver_info), [driver_info_query vendor_id product_id]))
        = (.ok infos, qs) →
      ∃ recs : List WmiDeviceInfo, infos = recs.map mk_driver_info := by
    intro pre hpre
    cases pre with
    | false =>
      simp at hpre
      exact ⟨[], by simp [hpre.1]⟩
    | true =>
      simp only [Bool.not_true, if_neg] at hpre
      cases hinit : wmi.init with
      | error e => rw [hinit] at hpre; simp at hpre
      | ok u =>
        rw [hinit] at hpre
        cases hq : wmi.query (driver_info_query vendor_id product_id) with
        | error e => rw [hq] at hpre; simp at hpre
        | ok recs =>
          rw [hq] at hpre
          simp at hpre
          exact ⟨recs, hpre.1.symm⟩
  cases hv : vendor_id with
  | none =>
    subst hv
    exact step true (by simpa [get_driver_info] using h)
  | some vid =>
    cases hp : product_id with
    | none =>
      subst hv
      subst hp
      exact step true (by simpa [get_driver_info] using h)
    | some pid =>
      subst hv
      subst hp
      by_cases hc : is_device_present usb vid pid = true
      · exact step true (by simpa [get_driver_info, hc] using h)
      · simp [get_driver_info, Bool.eq_false_iff.mpr hc] at h
        exact ⟨[], by simp [h.1]⟩

/-- C8: for every record returned by `get_driver_info`, `is_winusb` is
true iff the provider field is present and contains the substring
"WinUSB"; concretely, provider "Microsoft WinUSB Device Driver" yields
true, "Generic USB Driver" yields false, and an absent provider yields
false. -/
theorem is_winusb_derivation :
    (∀ (usb : UsbSnapshot) (wmi : WmiEnv) (vendor_id product_id : Option Nat)
       (infos : List DriverInfo) (qs : List String),
       get_driver_info usb wmi vendor_id product_id = (.ok infos, qs) →
       ∀ d ∈ infos, (d.is_winusb = true ↔
         ∃ provider, d.driver_provider = some provider
           ∧ str_contains provider "WinUSB" = true))
    ∧ (mk_driver_info ⟨"X", some "n", some "Microsoft WinUSB Device Driver", none, none⟩).is_winusb = true
    ∧ (mk_driver_info ⟨"X", some "n", some "Generic USB Driver", none, none⟩).is_winusb = false
    ∧ (mk_driver_info ⟨"X", some "n", none, none, none⟩).is_winusb = false := by
  refine ⟨?_, by decide, by decide, by decide⟩
  intro usb wmi vendor_id product_id infos qs hrun d hd
  rcases get_driver_info_ok_shape usb wmi vendor_id product_id infos qs hrun with ⟨recs, hshape⟩
  rw [hshape] at hd
  rcases List.mem_map.mp hd with ⟨rec, _, hrec⟩
  rw [← hrec]
  exact mk_driver_info_winusb rec

/-- Witness for C8: a full `get_driver_info` run returning one record
whose provider is "Microsoft WinUSB Device Driver". -/
theorem is_winusb_derivation_witness :
    (mk_driver_info ⟨"USB\\VID_057E&PID_0337", none,
       some "Microsoft WinUSB Device Driver", none, none⟩).is_winusb = true := by
  have h := is_winusb_derivation.1 (.devices [])
    ⟨.ok (), fun _ => .ok [⟨"USB\\VID_057E&PID_0337", none,
       some "Microsoft WinUSB Device Driver", none, none⟩]⟩
    none none
    [mk_driver_info ⟨"USB\\VID_057E&PID_0337", none,
       some "Microsoft WinUSB Device Driver", none, none⟩]
    [driver_info_query none none]
    rfl
    (mk_driver_info ⟨"USB\\VID_057E&PID_0337", none,
       some "Microsoft WinUSB Device Driver", none, none⟩)
    (by simp)
  exact h.mpr ⟨"Microsoft WinUSB Device Driver", rfl, by decide⟩

/-- C9 counterexample: a driver-database record that lacks its Name
field is returned by `get_driver_info` with the substitute device name
"Unknown Device" rather than with the absence preserved — the record
lacks the name, and the returned name was not carried over from it. -/
theorem driver_info_passthrough_counterexample :
    (get_driver_info (.devices [])
       ⟨.ok (), fun _ => .ok [⟨"USB\\VID_057E&PID_0337", none, none, none, none⟩]⟩
       none none).1
      = .ok [⟨"USB\\VID_057E&PID_0337", "Unknown Device", none, none, none, false⟩]
    ∧ (⟨"USB\\VID_057E&PID_0337", none, none, none, none⟩ : WmiDeviceInfo).name = none
    ∧ ¬ ((⟨"USB\\VID_057E&PID_0337", none, none, none, none⟩ : WmiDeviceInfo).name
          = some "Unknown Device") :=
  ⟨rfl, rfl, by decide⟩

/-- C9 amended: the device identifier, driver provider, driver version
and driver date fields pass through unmodified with absent values
preserved; the device name passes through when present, and an absent
device name is replaced by the fixed string "Unknown Device". Every
successful `get_driver_info` query result is exactly the record list
mapped through that projection. -/
theorem driver_info_passthrough_amended :
    (∀ (usb : UsbSnapshot) (wmi : WmiEnv) (vendor_id product_id : Option Nat)
       (recs : List WmiDeviceInfo),
       wmi.init = .ok () →
       wmi.query (driver_info_query vendor_id product_id) = .ok recs →
       (match vendor_id, product_id with
        | some vid, some pid => is_device_present usb vid pid = true
        | _, _ => True) →
       get_driver_info usb wmi vendor_id product_id
         = (.ok (recs.map mk_driver_info), [driver_info_query vendor_id product_id]))
    ∧ (∀ rec : WmiDeviceInfo,
       (mk_driver_info rec).device_id = rec.device_id
       ∧ (mk_driver_info rec).driver_provider = rec.driver_provider
       ∧ (mk_driver_info rec).driver_version = rec.driver_version
       ∧ (mk_driver_info rec).driver_date = rec.driver_date
       ∧ (mk_driver_info rec).device_name = rec.name.getD "Unknown Device") := by
  constructor
  · intro usb wmi vendor_id product_id recs hinit hq hpre
    cases vendor_id with
    | some vid =>
      cases product_id with
      | some pid => simp [get_driver_info, hpre, hinit, hq]
      | none => simp [get_driver_info, hinit, hq]
    | none =>
      cases product_id <;> simp [get_driver_info, hinit, hq]
  · intro rec
    exact ⟨rfl, rfl, rfl, rfl, rfl⟩

/-- Witness for the amended C9 at a concrete connected device and a
one-record database. -/
theorem driver_info_passthrough_amended_witness :
    get_driver_info (.devices [⟨some (0x057E, 0x0337)⟩])
      ⟨.ok (), fun _ => .ok [⟨"D", some "GameCube Adapter", some "Generic USB Driver",
         some "1.0", some "2024"⟩]⟩
      (some 0x057E) (some 0x0337)
    = (.ok ([(⟨"D", some "GameCube Adapter", some "Generic USB Driver",
         some "1.0", some "2024"⟩ : WmiDeviceInfo)].map mk_driver_info),
       [driver_info_query (some 0x057E) (some 0x0337)]) :=
  driver_info_passthrough_amended.1 _ _ _ _
    [⟨"D", some "GameCube Adapter", some "Generic USB Driver", some "1.0", some "2024"⟩]
    rfl rfl (by decide)

theorem getD_replicate_false : ∀ (n i : Nat), (List.replicate n false).getD i false = false := by
  intro n
  induction n with
  | zero => intro i; rfl
  | succ m ih =>
    intro i
    cases i with
    | zero => rfl
    | succ j => simp [List.replicate, ih j]

theorem mark_matches_length (dv dp : Nat) :
    ∀ (pairs : List (Nat × Nat)) (results : List Bool),
      results.length = pairs.length →
      (mark_matches dv dp pairs results).length = pairs.length := by
  intro pairs
  induction pairs with
  | nil =>
    intro results _
    cases results <;> rfl
  | cons pr prs ih =>
    intro results h
    cases results with
    | nil => simp at h
    | cons r rs =>
      simp only [mark_matches, List.length_cons] at h ⊢
      exact congrArg Nat.succ (ih rs (Nat.succ_injective h))

theorem mark_matches_getD (dv dp : Nat) :
    ∀ (pairs : List (Nat × Nat)) (results : List Bool) (i : Nat),
      results.length = pairs.length → i < pairs.length →
      (mark_matches dv dp pairs results).getD i false
        = (results.getD i false
           || (dv == (pairs.getD i (0, 0)).1 && dp == (pairs.getD i (0, 0)).2)) := by
  intro pairs
  induction pairs with
  | nil =>
    intro results i _ hi
    simp at hi
  | cons pr prs ih =>
    intro results i h hi
    cases results with
    | nil => simp at h
    | cons r rs =>
      cases i with
      | zero => simp [mark_matches]
      | succ j =>
        simp only [mark_matches, List.getD_cons_succ]
        exact ih rs j (Nat.succ_injective h) (Nat.lt_of_succ_lt_succ hi)

theorem scan_device_length (desc : Option (Nat × Nat)) (pairs : List (Nat × Nat))
    (results : List Bool) (h : results.length = pairs.length) :
    (scan_device desc pairs results).length = pairs.length := by
  cases desc with
  | none => exact h
  | some x =>
    cases x with
    | mk dv dp => exact mark_matches_length dv dp pairs results h

theorem scan_device_getD (desc : Option (Nat × Nat)) (pairs : List (Nat × Nat))
    (results : List Bool) (i : Nat) (h : results.length = pairs.length)
    (hi : i < pairs.length) :
    (scan_device desc pairs results).getD i false
      = (results.getD i false || dev_matches desc (pairs.getD i (0, 0))) := by
  cases desc with
  | none => simp [scan_device, dev_matches]
  | some x =>
    cases x with
    | mk dv dp =>
      simpa [scan_device, dev_matches] using mark_matches_getD dv dp pairs results i h hi

theorem foldl_scan_length (pairs : List (Nat × Nat)) :
    ∀ (device_list : List UsbDevice) (results : List Bool),
      results.length = pairs.length →
      (device_list.foldl (fun rs d => scan_device d.desc pairs rs) results).length
        = pairs.length := by
  intro device_list
  induction device_list with
  | nil => intro results h; exact h
  | cons d ds ih =>
    intro results h
    exact ih _ (scan_device_length d.desc pairs results h)

theorem foldl_scan_getD (pairs : List (Nat × Nat)) (i : Nat) (hi : i < pairs.length) :
    ∀ (device_list : List UsbDevice) (results : List Bool),
      results.length = pairs.length →
      (device_list.foldl (fun rs d => scan_device d.desc pairs rs) results).getD i false
        = (results.getD i false
           || device_list.any (fun d => dev_matches d.desc (pairs.getD i (0, 0)))) := by
  intro device_list
  induction device_list with
  | nil =>
    intro results _
    simp
  | cons d ds ih =>
    intro results h
    simp only [List.foldl_cons, List.any_cons]
    rw [ih _ (scan_device_length d.desc pairs results h),
        scan_device_getD d.desc pairs results i h hi, Bool.or_assoc]

theorem dev_matches_iff (desc : Option (Nat × Nat)) (pr : Nat × Nat) :
    dev_matches desc pr = true
      ↔ ∃ dv dp, desc = some (dv, dp) ∧ dv = pr.1 ∧ dp = pr.2 := by
  cases desc with
  | none => simp [dev_matches]
  | some x =>
    cases x with
    | mk dv dp => simp [dev_matches]

/-- C4: the batch bus scan returns a list of the same length as its
input; on USB context or enumeration failure every entry is false; and
on a successful enumeration, entry i is true iff at least one attached
device with a readable descriptor matches pair i exactly (so an
unreadable descriptor on one device never hides matches on others). -/
theorem is_device_connected_batch_spec (usb : UsbSnapshot) (pairs : List (Nat × Nat)) :
    (is_device_connected_batch usb pairs).length = pairs.length
    ∧ (∀ i, (is_device_connected_batch .noContext pairs).getD i false = false
        ∧ (is_device_connected_batch .noEnumeration pairs).getD i false = false)
    ∧ (∀ device_list, usb = .devices device_list →
        ∀ i, i < pairs.length →
          ((is_device_connected_batch usb pairs).getD i false = true ↔
            ∃ d ∈ device_list, ∃ dv dp, d.desc = some (dv, dp)
              ∧ dv = (pairs.getD i (0, 0)).1 ∧ dp = (pairs.getD i (0, 0)).2)) := by
  refine ⟨?_, ?_, ?_⟩
  · cases usb with
    | noContext => simp [is_device_connected_batch]
    | noEnumeration => simp [is_device_connected_batch]
    | devices device_list =>
      exact foldl_scan_length pairs device_list _ (List.length_replicate _ _)
  · intro i
    exact ⟨getD_replicate_false _ _, getD_replicate_false _ _⟩
  · intro device_list husb i hi
    subst husb
    unfold is_device_connected_batch
    rw [foldl_scan_getD pairs i hi device_list _ (List.length_replicate _ _),
        getD_replicate_false, Bool.false_or, List.any_eq_true]
    constructor
    · rintro ⟨d, hd, hm⟩
      rcases (dev_matches_iff d.desc _).mp hm with ⟨dv, dp, hdesc, h1, h2⟩
      exact ⟨d, hd, dv, dp, hdesc, h1, h2⟩
    · rintro ⟨d, hd, dv, dp, hdesc, h1, h2⟩
      exact ⟨d, hd, (dev_matches_iff d.desc _).mpr ⟨dv, dp, hdesc, h1, h2⟩⟩

/-- Witness for C4: with one unreadable device and one GameCube
adapter attached, the batch entry for the GameCube pair is true. -/
theorem is_device_connected_batch_spec_witness :
    (is_device_connected_batch (.devices [⟨none⟩, ⟨some (0x057E, 0x0337)⟩])
       [(0x057E, 0x0337), (0x0738, 0x4726)]).getD 0 false = true :=
  ((is_device_connected_batch_spec (.devices [⟨none⟩, ⟨some (0x057E, 0x0337)⟩])
     [(0x057E, 0x0337), (0x0738, 0x4726)]).2.2 _ rfl 0 (by decide)).mpr
    ⟨⟨some (0x057E, 0x0337)⟩, by decide, 0x057E, 0x0337, rfl, by decide, by decide⟩

theorem rename_fileExists_src (fs : Fs) (src dst : String) (hne : src ≠ dst)
    (hex : fs.fileExists src = true) :
    (fs.rename src dst).fileExists src = false
    ∧ (fs.rename src dst).read dst = fs.read src := by
  simp only [Fs.fileExists] at hex
  rcases Option.isSome_iff_exists.mp hex with ⟨c, hc⟩
  constructor
  · simp [Fs.rename, hc, Fs.fileExists, Fs.read_write_ne _ hne, Fs.read_remove_self]
  · simp [Fs.rename, hc, Fs.read_write_self]

theorem uninstall_unfold (env : Env) (w : World)
    (hadmin : env.admin = true) (hrn : env.renameFails = false) :
    uninstall_xinput_driver env w
      = (if w.fs.fileExists (xinput_dll_path env) then
           ((.ok (), { w with
               fs := w.fs.rename (xinput_dll_path env) (xinput_dll_path env ++ ".bak"),
               procs := w.procs ++ ["net session"] }) : Except String Unit × World)
         else (.ok (), { w with procs := w.procs ++ ["net session"] })) := by
  by_cases hex : w.fs.fileExists (xinput_dll_path env) = true
  · simp [uninstall_xinput_driver, check_admin_rights, hadmin, hrn, hex]
  · simp only [Bool.not_eq_true] at hex
    simp [uninstall_xinput_driver, check_admin_rights, hadmin, hrn, hex]

/-- C6: with admin rights held (and no injected rename fault), XInput
uninstall renames an existing DLL to its .bak sibling preserving the
content and succeeds; with the DLL absent it succeeds while leaving the
filesystem untouched; and two calls in a row (DLL present, then
absent) both succeed. -/
theorem uninstall_xinput_idempotent (env : Env) (w : World)
    (hadmin : env.admin = true) (hrn : env.renameFails = false) :
    (w.fs.fileExists (xinput_dll_path env) = true →
       uninstall_xinput_driver env w
         = (.ok (), { w with
             fs := w.fs.rename (xinput_dll_path env) (xinput_dll_path env ++ ".bak"),
             procs := w.procs ++ ["net session"] })
       ∧ (uninstall_xinput_driver env w).2.fs.fileExists (xinput_dll_path env) = false
       ∧ (uninstall_xinput_driver env w).2.fs.read (xinput_dll_path env ++ ".bak")
           = w.fs.read (xinput_dll_path env))
    ∧ (w.fs.fileExists (xinput_dll_path env) = false →
       uninstall_xinput_driver env w
         = (.ok (), { w with procs := w.procs ++ ["net session"] }))
    ∧ ((uninstall_xinput_driver env w).1 = .ok ()
       ∧ (uninstall_xinput_driver env (uninstall_xinput_driver env w).2).1 = .ok ()) := by
  have hne := append_bak_ne (xinput_dll_path env)
  refine ⟨?_, ?_, ?_⟩
  · intro hex
    rcases rename_fileExists_src w.fs _ _ hne hex with ⟨h1, h2⟩
    refine ⟨by rw [uninstall_unfold env w hadmin hrn, if_pos hex], ?_, ?_⟩
    · rw [uninstall_unfold env w hadmin hrn, if_pos hex]
      exact h1
    · rw [uninstall_unfold env w hadmin hrn, if_pos hex]
      exact h2
  · intro hnex
    rw [uninstall_unfold env w hadmin hrn, if_neg (by simp [hnex])]
  · by_cases hex : w.fs.fileExists (xinput_dll_path env) = true
    · rcases rename_fileExists_src w.fs _ _ hne hex with ⟨h1, _⟩
      constructor
      · rw [uninstall_unfold env w hadmin hrn, if_pos hex]
      · rw [uninstall_unfold env w hadmin hrn, if_pos hex]
        rw [uninstall_unfold env _ hadmin hrn, if_neg (by simp [h1])]
    · simp only [Bool.not_eq_true] at hex
      constructor
      · rw [uninstall_unfold env w hadmin hrn, if_neg (by simp [hex])]
      · rw [uninstall_unfold env w hadmin hrn, if_neg (by simp [hex])]
        rw [uninstall_unfold env _ hadmin hrn, if_neg (by simp [hex])]

/-- Witness for C6: a concrete admin world with the DLL present;
uninstall succeeds and a second uninstall succeeds again. -/
theorem uninstall_xinput_idempotent_witness :
    (uninstall_xinput_driver ⟨true, some "C:/Windows", none, false, false, false, false, [], none⟩
       ⟨⟨[], [("C:/Windows/System32/xinput1_4.dll", "dll-bytes")]⟩, []⟩).1 = .ok ()
    ∧ (uninstall_xinput_driver ⟨true, some "C:/Windows", none, false, false, false, false, [], none⟩
        (uninstall_xinput_driver ⟨true, some "C:/Windows", none, false, false, false, false, [], none⟩
          ⟨⟨[], [("C:/Windows/System32/xinput1_4.dll", "dll-bytes")]⟩, []⟩).2).1 = .ok () :=
  (uninstall_xinput_idempotent
    ⟨true, some "C:/Windows", none, false, false, false, false, [], none⟩
    ⟨⟨[], [("C:/Windows/System32/xinput1_4.dll", "dll-bytes")]⟩, []⟩ rfl rfl).2.2

/-- C3: `install_winusb` gating. A failed admin probe yields a failure
result immediately; with admin rights but the GameCube identity
(VID 0x057E, PID 0x0337) absent from the bus it yields the
device-not-connected failure with the world untouched apart from the
probe log (so no scratch-directory or INF work happens); with both
preconditions met its outcome is exactly that of the prepare-then-
install pipeline on the probed world; and that pipeline runs Prepare
first, runs Install only after Prepare succeeds, and surfaces the
first failure. -/
theorem install_winusb_gating (env : Env) (usb : UsbSnapshot) (w : World) :
    (env.admin = false →
       install_winusb env usb w
         = ({ success := false, message := "Administrator privileges required" },
            { w with procs := w.procs ++ ["net session"] }))
    ∧ (env.admin = true →
       is_device_present usb DEVICES.gamecube_mode.vid DEVICES.gamecube_mode.pid = false →
       install_winusb env usb w
         = ({ success := false,
              message := "GameCube adapter not found. Please make sure it is connected and in the correct mode." },
            { w with procs := w.procs ++ ["net session"] }))
    ∧ (env.admin = true →
       is_device_present usb DEVICES.gamecube_mode.vid DEVICES.gamecube_mode.pid = true →
       (∀ e w2,
          install_winusb_driver
            (((((ConfigBuilder.new).set_vendor_id DEVICES.gamecube_mode.vid).set_product_id
                DEVICES.gamecube_mode.pid).set_description
                DEVICES.gamecube_mode.name).set_manufacturer "Nintendo").build
            env { w with procs := w.procs ++ ["net session"] } = (.error e, w2) →
          install_winusb env usb w
            = ({ success := false, message := "Failed to install WinUSB driver: " ++ e }, w2))
       ∧ (∀ w2,
          install_winusb_driver
            (((((ConfigBuilder.new).set_vendor_id DEVICES.gamecube_mode.vid).set_product_id
                DEVICES.gamecube_mode.pid).set_description
                DEVICES.gamecube_mode.name).set_manufacturer "Nintendo").build
            env { w with procs := w.procs ++ ["net session"] } = (.ok (), w2) →
          install_winusb env usb w
            = ({ success := true,
                 message := "WinUSB driver successfully installed for GameCube adapter" }, w2)))
    ∧ (∀ (c : Config) (w0 : World),
       (∀ e w2, c.prepare_driver env w0 = (.error e, w2) →
          install_winusb_driver c env w0
            = (.error (match e with
                | .DriverNotFound => "WinUSB driver files not found"
                | e => "Failed to prepare driver: " ++ e.display), w2))
       ∧ (∀ w2, c.prepare_driver env w0 = (.ok (), w2) →
          install_winusb_driver c env w0
            = (match c.install_driver env w2 with
               | (.ok _, w3) => (.ok (), w3)
               | (.error e2, w3) => (.error ("Failed to install driver: " ++ e2), w3)))) := by
  refine ⟨?_, ?_, ?_, ?_⟩
  · intro h
    simp [install_winusb, check_admin_rights, h]
  · intro h1 h2
    simp [install_winusb, check_admin_rights, h1, h2]
  · intro h1 h2
    constructor
    · intro e w2 hdrv
      simp [install_winusb, check_admin_rights, h1, h2, hdrv]
    · intro w2 hdrv
      simp [install_winusb, check_admin_rights, h1, h2, hdrv]
  · intro c w0
    constructor
    · intro e w2 hprep
      cases e <;> simp [install_winusb_driver, hprep, PrepareDriverError.display]
    · intro w2 hprep
      simp [install_winusb_driver, hprep]

/-- Witness for C3: admin rights held but the GameCube adapter absent;
the call fails with the device-not-connected message and the world
gains only the probe log entry. -/
theorem install_winusb_gating_witness :
    install_winusb ⟨true, none, some "EXE", false, false, false, false, [], some (true, "")⟩
      (.devices [⟨some (0x0738, 0x4726)⟩]) ⟨⟨[], []⟩, []⟩
      = ({ success := false,
           message := "GameCube adapter not found. Please make sure it is connected and in the correct mode." },
         ⟨⟨[], []⟩, ["net session"]⟩) :=
  (install_winusb_gating ⟨true, none, some "EXE", false, false, false, false, [], some (true, "")⟩
    (.devices [⟨some (0x0738, 0x4726)⟩]) ⟨⟨[], []⟩, []⟩).2.1 rfl (by decide)

theorem get_device_status_ok (env : Env) (fs : Fs) (busUsb gcUsb wuUsb : UsbSnapshot)
    (recs : List WmiPnPEntity) :
    get_device_status env fs busUsb gcUsb wuUsb (.ok recs)
      = { default_mode_connected :=
            (is_device_connected_batch busUsb status_devices_to_check).getD 0 false
          config_mode_connected :=
            (is_device_connected_batch busUsb status_devices_to_check).getD 1 false
          bootsel_mode_connected :=
            (is_device_connected_batch busUsb status_devices_to_check).getD 2 false
          switch_mode_connected :=
            (is_device_connected_batch busUsb status_devices_to_check).getD 3 false
          xinput_installed := is_xinput_installed env fs
          gamecube_adapter_connected :=
            is_device_present gcUsb DEVICES.gamecube_mode.vid DEVICES.gamecube_mode.pid
          winusb_installed :=
            is_device_present wuUsb DEVICES.gamecube_mode.vid DEVICES.gamecube_mode.pid
              && recs.any (fun d =>
                   match d.driver_provider with
                   | some p => str_contains p "WinUSB"
                   | none => false) } := by
  by_cases hp : is_device_present wuUsb DEVICES.gamecube_mode.vid DEVICES.gamecube_mode.pid = true
  · simp [get_device_status, get_current_device_status, check_winusb_driver, hp]
  · simp only [Bool.not_eq_true] at hp
    simp [get_device_status, get_current_device_status, check_winusb_driver, hp]

theorem get_device_status_wmi_error (env : Env) (fs : Fs) (busUsb gcUsb wuUsb : UsbSnapshot)
    (e : String)
    (hp : is_device_present wuUsb DEVICES.gamecube_mode.vid DEVICES.gamecube_mode.pid = true) :
    get_device_status env fs busUsb gcUsb wuUsb (.error e) = all_false_status := by
  simp [get_device_status, get_current_device_status, check_winusb_driver, hp]

/-- C1 counterexample: with the Default-mode device and the GameCube
adapter attached, injecting a failure into the WinUSB driver query
sub-check (a WMI error) does not leave the other fields at their
no-failure values: the whole snapshot degrades to all-false, so
`default_mode_connected` flips from true to false even though it is
not fed by that sub-check. -/
theorem status_winusb_failure_not_isolated :
    get_device_status ⟨true, none, none, false, false, false, false, [], none⟩ ⟨[], []⟩
        (.devices [⟨some (0x0738, 0x4726)⟩, ⟨some (0x057E, 0x0337)⟩])
        (.devices [⟨some (0x0738, 0x4726)⟩, ⟨some (0x057E, 0x0337)⟩])
        (.devices [⟨some (0x0738, 0x4726)⟩, ⟨some (0x057E, 0x0337)⟩])
        (.error "WMI query failed")
      ≠ { get_device_status ⟨true, none, none, false, false, false, false, [], none⟩ ⟨[], []⟩
            (.devices [⟨some (0x0738, 0x4726)⟩, ⟨some (0x057E, 0x0337)⟩])
            (.devices [⟨some (0x0738, 0x4726)⟩, ⟨some (0x057E, 0x0337)⟩])
            (.devices [⟨some (0x0738, 0x4726)⟩, ⟨some (0x057E, 0x0337)⟩])
            (.ok []) with winusb_installed := false } := by
  decide

/-- C1 amended: failures inject per-field for three of the four
sub-checks — a bus-scan failure zeroes exactly the four mode flags, a
GameCube connectivity failure zeroes exactly the adapter flag, an
XInput filesystem check failure zeroes exactly the XInput flag, and a
failed connectivity pre-check inside the WinUSB query zeroes exactly
the WinUSB flag — but a WMI error in the WinUSB driver query (with the
adapter present) degrades the entire snapshot to all-false rather than
only that field. -/
theorem status_failure_isolation_amended (env : Env) (fs fs2 : Fs) (L : List UsbDevice)
    (recs : List WmiPnPEntity) (e : String) :
    (get_device_status env fs .noContext (.devices L) (.devices L) (.ok recs)
       = { get_device_status env fs (.devices L) (.devices L) (.devices L) (.ok recs) with
           default_mode_connected := false, config_mode_connected := false,
           bootsel_mode_connected := false, switch_mode_connected := false })
    ∧ (get_device_status env fs (.devices L) .noContext (.devices L) (.ok recs)
       = { get_device_status env fs (.devices L) (.devices L) (.devices L) (.ok recs) with
           gamecube_adapter_connected := false })
    ∧ (is_xinput_installed env fs2 = false →
       get_device_status env fs2 (.devices L) (.devices L) (.devices L) (.ok recs)
       = { get_device_status env fs (.devices L) (.devices L) (.devices L) (.ok recs) with
           xinput_installed := false })
    ∧ (get_device_status env fs (.devices L) (.devices L) .noContext (.ok recs)
       = { get_device_status env fs (.devices L) (.devices L) (.devices L) (.ok recs) with
           winusb_installed := false })
    ∧ (is_device_present (.devices L) DEVICES.gamecube_mode.vid DEVICES.gamecube_mode.pid = true →
       get_device_status env fs (.devices L) (.devices L) (.devices L) (.error e)
       = all_false_status) := by
  refine ⟨?_, ?_, ?_, ?_, ?_⟩
  · simp [get_device_status_ok, is_device_connected_batch, getD_replicate_false]
  · simp [get_device_status_ok, is_device_present]
  · intro hx
    simp [get_device_status_ok, hx]
  · simp [get_device_status_ok, is_device_present]
  · intro hp
    exact get_device_status_wmi_error env fs _ _ _ e hp

/-- Witness for the amended C1: with the GameCube adapter attached, a
WMI error in the driver query degrades the whole snapshot. -/
theorem status_failure_isolation_amended_witness :
    get_device_status ⟨true, none, none, false, false, false, false, [], none⟩ ⟨[], []⟩
        (.devices [⟨some (0x057E, 0x0337)⟩]) (.devices [⟨some (0x057E, 0x0337)⟩])
        (.devices [⟨some (0x057E, 0x0337)⟩]) (.error "WMI query failed")
      = all_false_status :=
  (status_failure_isolation_amended ⟨true, none, none, false, false, false, false, [], none⟩
    ⟨[], []⟩ ⟨[], []⟩ [⟨some (0x057E, 0x0337)⟩] [] "WMI query failed").2.2.2.2 (by decide)
